import Mathlib

/-!
Verification of the connection-management core of taserver.

Shallow embedding of:
- src/common/connectionhandler.py   (ConnectionReader.run, ConnectionWriter.run,
  ClientInstance, ConnectionHandler._handle, OutgoingConnectionHandler.run)
- src/game_server_launcher/main.py  (the supervisor restart loop in main)
- src/authbot/authbot.py            (AuthBot.handle_login_protocol_message dispatch)

Concurrent gevent code is modelled denotationally: each task is a function from
the sequence of externally determined outcomes of its blocking operations
(socket receive results, socket send results, dial results, finished-greenlet
exception kinds) to the trace of observable actions it performs (queue puts,
socket writes, socket closes, sleeps, spawns) together with whether the task
raised an exception.
-/

namespace TAServer

/-! ## Messages on the shared incoming queue

connectionhandler.py lines 28-35: PeerConnectedMessage and
PeerDisconnectedMessage carry only the peer.  A payload message is an
already-decoded protocol unit (type parameter α) tagged with its peer.
All messages modelled here belong to one fixed connection, so the peer
field is left implicit.
-/

inductive InMsg (α : Type) where
  | connected
  | payload (m : α)
  | disconnected
deriving DecidableEq

def InMsg.isConnected {α : Type} : InMsg α → Bool
  | .connected => true
  | _ => false

def InMsg.isDisconnected {α : Type} : InMsg α → Bool
  | .disconnected => true
  | _ => false

/-! ## Read Flow: ConnectionReader.run (connectionhandler.py lines 46-60)

The loop body calls self.receive() and self.decode(); each successful
iteration puts one decoded payload on the incoming queue.  The loop can only
end by an exception:
- ConnectionResetError (EndCause.reset) is caught by the except clause on
  line 56; control then falls through to the put of PeerDisconnectedMessage
  on line 59.  Per the spec the TcpMessageReader codec (outside src/) raises
  ConnectionResetError both on remote reset and on clean remote close.
- any other exception (EndCause.fault) - a decode or I/O error, or the
  GreenletExit raised when the supervisor kills the task - is not caught:
  it propagates out of run and the put on line 59 is never reached.

A run of the reader is therefore determined by the list of successfully
decoded messages followed by the terminating cause.  The result is the
sequence of puts made on the incoming queue, paired with whether run raised.
-/

inductive EndCause where
  | reset
  | fault
deriving DecidableEq

def ConnectionReader.runLoop {α : Type} (q : List (InMsg α)) :
    List α → EndCause → List (InMsg α) × Bool
  | [], .reset => (q ++ [InMsg.disconnected], false)
  | [], .fault => (q, true)
  | m :: rest, e => ConnectionReader.runLoop (q ++ [InMsg.payload m]) rest e

def ConnectionReader.run {α : Type} (msgs : List α) (ending : EndCause) :
    List (InMsg α) × Bool :=
  ConnectionReader.runLoop [InMsg.connected] msgs ending

/-! ## Write Flow: ConnectionWriter.run (connectionhandler.py lines 87-103)

The loop dequeues from the outgoing queue.  A PeerDisconnectedMessage is the
disconnect sentinel: the loop breaks and the socket is closed (line 102)
without encoding or sending the sentinel.  For any other item the writer
encodes and sends it; the combined outcome of encode plus send is one of:
- ok: the encoded bytes were written;
- resetErr: a ConnectionResetError, caught on line 94 and ignored;
- otherErr: any other exception, which is not caught and propagates out of
  run, so the socket close on line 102 is never reached.

The queue is modelled as the list of items dequeued in order, each payload
item paired with the outcome its write would have.  An exhausted list means
the writer is still blocked in outgoing_queue.get(): no further actions.
-/

inductive WriteOutcome where
  | ok
  | resetErr
  | otherErr
deriving DecidableEq

inductive QItem (β : Type) where
  | msg (m : β) (outcome : WriteOutcome)
  | disconnectSentinel
deriving DecidableEq

inductive WAction (β : Type) where
  | wrote (m : β)
  | closedSocket
deriving DecidableEq

def WAction.isClosedSocket {β : Type} : WAction β → Bool
  | .closedSocket => true
  | _ => false

def ConnectionWriter.run {β : Type} : List (QItem β) → List (WAction β) × Bool
  | [] => ([], false)
  | QItem.disconnectSentinel :: _ => ([WAction.closedSocket], false)
  | QItem.msg m outcome :: rest =>
    match outcome with
    | .ok =>
      let r := ConnectionWriter.run rest
      (WAction.wrote m :: r.1, r.2)
    | .resetErr => ConnectionWriter.run rest
    | .otherErr => ([], true)

/-! ## Peer Handle: ClientInstance (connectionhandler.py lines 123-133)

send puts the message on the outgoing queue; disconnect puts a
PeerDisconnectedMessage (the sentinel).  A queue is modelled by its list of
items in FIFO order; put appends.
-/

def ClientInstance.send {β : Type} (q : List (QItem β)) (m : β)
    (outcome : WriteOutcome) : List (QItem β) :=
  q ++ [QItem.msg m outcome]

def ClientInstance.disconnect {β : Type} (q : List (QItem β)) : List (QItem β) :=
  q ++ [QItem.disconnectSentinel]

def enqueueThenDisconnect {β : Type} (msgs : List (β × WriteOutcome)) :
    List (QItem β) :=
  ClientInstance.disconnect
    (msgs.foldl (fun q mo => ClientInstance.send q mo.1 mo.2) [])

/-! ## Exception kinds seen by the supervisor

common/errors.py defines FatalError; authbot.py line 41 defines
LoginFailedError as a subclass of FatalError.  The supervisor in
game_server_launcher/main.py classifies a finished greenlet by
isinstance(g.exception, FatalError) (line 67).  TypeError (raised by
ConnectionHandler._handle on a contract violation) is a Python builtin and
is not a subclass of FatalError.
-/

inductive ExcKind where
  | typeError
  | fatalError
  | loginFailedError
  | otherError
deriving DecidableEq

def isFatalError : ExcKind → Bool
  | .fatalError => true
  | .loginFailedError => true
  | _ => false

/-! ## Per-connection setup: ConnectionHandler._handle
(connectionhandler.py lines 151-186)

create_connection_instances is a role-supplied hook; only the type shape of
the triple it returns matters to _handle:
- isinstance(reader, ConnectionReader) and isinstance(writer,
  ConnectionWriter) are modelled as booleans;
- the peer class is one of: exactly ClientInstance, a proper subclass of
  ClientInstance, or not a ClientInstance at all.  isinstance(peer,
  ClientInstance) holds for the first two; type(peer) is ClientInstance
  holds only for the first.

_handle checks the isinstance shape first (lines 157-161, TypeError), then
rejects a peer of exact type ClientInstance (lines 163-168, TypeError);
only after both checks does it create the outgoing queue (line 170), wire
the peer, reader and writer (lines 172-183), spawn the reader task
(line 185) and run the writer (line 186).  The result is the trace of those
actions plus the outcome (raised exception kind, or completed).
-/

inductive PeerClass where
  | exactClientInstance
  | properSubclass
  | notClientInstance
deriving DecidableEq

def peer_isinstance_ClientInstance : PeerClass → Bool
  | .notClientInstance => false
  | _ => true

def peer_type_is_ClientInstance : PeerClass → Bool
  | .exactClientInstance => true
  | _ => false

inductive HandleAction where
  | createdOutgoingQueue
  | wiredPeer
  | wiredReader
  | wiredWriter
  | spawnedReaderTask
  | ranWriter
deriving DecidableEq

inductive HandleOutcome where
  | raised (e : ExcKind)
  | completed
deriving DecidableEq

def ConnectionHandler.handle (readerIsConnectionReader : Bool)
    (writerIsConnectionWriter : Bool) (peer : PeerClass) :
    List HandleAction × HandleOutcome :=
  if ¬ (peer_isinstance_ClientInstance peer = true ∧
        readerIsConnectionReader = true ∧
        writerIsConnectionWriter = true) then
    ([], HandleOutcome.raised ExcKind.typeError)
  else if peer_type_is_ClientInstance peer then
    ([], HandleOutcome.raised ExcKind.typeError)
  else
    ([HandleAction.createdOutgoingQueue, HandleAction.wiredPeer,
      HandleAction.wiredReader, HandleAction.wiredWriter,
      HandleAction.spawnedReaderTask, HandleAction.ranWriter],
     HandleOutcome.completed)

/-! ## Connection Initiator: OutgoingConnectionHandler.run
(connectionhandler.py lines 195-215)

Each iteration creates a socket and calls connect; the dial outcome is
either success or ConnectionRefusedError.  On refusal the socket is closed;
with retry_time set the task sleeps and redials, with retry_time None the
loop breaks with success False and run returns without calling _handle and
without raising.  On success the loop exits and _handle runs the same
per-connection setup as the acceptor (ranHandle stands for the call to
self._handle, the method modelled above as ConnectionHandler.handle).
The input list holds the outcomes of the successive connect calls; an
exhausted list means the task is still dialling.
-/

inductive DialOutcome where
  | refused
  | connectSucceeded
deriving DecidableEq

inductive OutAction where
  | createdSocket
  | closedSocket
  | slept (seconds : Nat)
  | ranHandle
deriving DecidableEq

def OutgoingConnectionHandler.run (retryTime : Option Nat) :
    List DialOutcome → List OutAction
  | [] => []
  | DialOutcome.connectSucceeded :: _ =>
    [OutAction.createdSocket, OutAction.ranHandle]
  | DialOutcome.refused :: rest =>
    OutAction.createdSocket :: OutAction.closedSocket ::
    (match retryTime with
     | some t => OutAction.slept t :: OutgoingConnectionHandler.run (some t) rest
     | none => [])

/-! ## Supervisor: the restart loop of game_server_launcher/main.py
(lines 49-81)

Each iteration of the while-restart loop creates two fresh gevent queues
(lines 50-51, empty on creation), spawns the task set sharing them
(lines 53-59), blocks until at least one task finishes (joinall with
count=1, line 62), collects the fatal errors among the finished greenlets
by isinstance(g.exception, FatalError) (lines 66-67), logs them and clears
the restart flag if any (lines 68-75), kills all tasks (line 78), sleeps
restart_delay seconds (line 81) and loops while restart holds.

A queue is identified by an allocation id and its initial contents; the
loop allocates two fresh ids per cycle.  The input is the list of cycle
outcomes, one per cycle: the exception kinds of the greenlets returned by
joinall (nonempty, since joinall with count=1 blocks until one finishes).
An exhausted input list means the current cycle is still running.
-/

structure GQueue where
  qid : Nat
  items : List Unit
deriving DecidableEq

inductive SupAction where
  | createdQueues (incoming serverHandler : GQueue)
  | spawnedTaskSet (incomingId serverHandlerId : Nat)
  | loggedFatalErrors
  | killedAllTasks
  | slept (seconds : Nat)
deriving DecidableEq

def SupAction.isSpawnedTaskSet : SupAction → Bool
  | .spawnedTaskSet _ _ => true
  | _ => false

def SupAction.isKilledAllTasks : SupAction → Bool
  | .killedAllTasks => true
  | _ => false

def restart_delay : Nat := 10

def supervisorLoop (delay : Nat) : Nat → List (List ExcKind) → List SupAction
  | _, [] => []
  | n, finished :: rest =>
    let fatal := finished.any isFatalError
    SupAction.createdQueues ⟨n, []⟩ ⟨n + 1, []⟩ ::
    SupAction.spawnedTaskSet n (n + 1) ::
    ((if fatal then [SupAction.loggedFatalErrors] else []) ++
     SupAction.killedAllTasks ::
     SupAction.slept delay ::
     (if fatal then [] else supervisorLoop delay (n + 2) rest))

def mainLoop (cycles : List (List ExcKind)) : List SupAction :=
  supervisorLoop restart_delay 0 cycles

/-! ## AuthBot request dispatch: AuthBot.handle_login_protocol_message
(authbot.py lines 175-192)

For each request in msg.requests the method collects, via
inspect.getmembers, the bound methods whose handles_packet attribute (set
by the handles decorator, lines 46-61; functools.wraps copies it onto the
wrapper) equals type(request).  If no method matches it logs a warning and
RETURNS from handle_login_protocol_message, abandoning the remaining
requests of the message; if more than one matches it raises ValueError;
otherwise it invokes the unique method and continues with the next request.

Packet types are the a-record classes of common/datatypes.py; the ones
AuthBot handles are listed below, each handled by exactly one decorated
method (lines 194-248).  A handler table is a list of (method name, packet
type) pairs; methodsFor is the inspect.getmembers filter.
-/

inductive PacketType where
  | a01bc
  | a0197
  | a003a
  | a003d
  | a0070
  | other (ident : Nat)
deriving DecidableEq

def authBotHandlers : List (String × PacketType) :=
  [("handle_a01bc", PacketType.a01bc),
   ("handle_a0197", PacketType.a0197),
   ("handle_a003a", PacketType.a003a),
   ("handle_a003d", PacketType.a003d),
   ("handle_chat", PacketType.a0070)]

def methodsFor (hs : List (String × PacketType)) (p : PacketType) : List String :=
  (hs.filter (fun h => h.2 == p)).map (fun h => h.1)

inductive DispatchEvent where
  | invoked (methodName : String) (req : PacketType)
  | warnedNoHandler (req : PacketType)
  | raisedValueError
deriving DecidableEq

def AuthBot.handle_login_protocol_message (hs : List (String × PacketType)) :
    List PacketType → List DispatchEvent
  | [] => []
  | req :: rest =>
    match methodsFor hs req with
    | [] => [DispatchEvent.warnedNoHandler req]
    | [m] => DispatchEvent.invoked m req ::
             AuthBot.handle_login_protocol_message hs rest
    | _ :: _ :: _ => [DispatchEvent.raisedValueError]

/-! ## Lemmas about the Read Flow -/

theorem ConnectionReader.runLoop_eq {α : Type} (msgs : List α)
    (q : List (InMsg α)) (e : EndCause) :
    ConnectionReader.runLoop q msgs e =
      (q ++ msgs.map InMsg.payload ++
        (match e with
         | EndCause.reset => [InMsg.disconnected]
         | EndCause.fault => []),
       match e with
       | EndCause.reset => false
       | EndCause.fault => true) := by
  induction msgs generalizing q with
  | nil => cases e <;> simp [ConnectionReader.runLoop]
  | cons m rest ih =>
    cases e <;> simp [ConnectionReader.runLoop, ih]

theorem ConnectionReader.run_reset {α : Type} (msgs : List α) :
    ConnectionReader.run msgs EndCause.reset =
      (InMsg.connected :: (msgs.map InMsg.payload ++ [InMsg.disconnected]),
       false) := by
  simp [ConnectionReader.run, ConnectionReader.runLoop_eq]

theorem ConnectionReader.run_fault {α : Type} (msgs : List α) :
    ConnectionReader.run msgs EndCause.fault =
      (InMsg.connected :: msgs.map InMsg.payload, true) := by
  simp [ConnectionReader.run, ConnectionReader.runLoop_eq]

theorem countP_isDisconnected_payloads {α : Type} (msgs : List α) :
    (msgs.map InMsg.payload).countP InMsg.isDisconnected = 0 := by
  rw [List.countP_eq_zero]
  intro a ha
  obtain ⟨m, _, rfl⟩ := List.mem_map.mp ha
  simp [InMsg.isDisconnected]

theorem countP_isConnected_payloads {α : Type} (msgs : List α) :
    (msgs.map InMsg.payload).countP InMsg.isConnected = 0 := by
  rw [List.countP_eq_zero]
  intro a ha
  obtain ⟨m, _, rfl⟩ := List.mem_map.mp ha
  simp [InMsg.isConnected]

/-- Claim C1 counterexample.  The claim states that on EVERY exit path of the
receive/decode loop of ConnectionReader.run - including an exit via a decode
or I/O error, or cancellation - exactly one PeerDisconnectedMessage is put on
the incoming queue.  On the fault exit (an exception other than
ConnectionResetError, e.g. a decode error), the except clause on line 56 of
connectionhandler.py does not match, the exception propagates, and the put of
PeerDisconnectedMessage on line 59 is never executed: a run with zero decoded
messages that ends in a fault puts no PeerDisconnectedMessage at all. -/
theorem c1_counterexample :
    (ConnectionReader.run ([] : List Nat) EndCause.fault).1.countP
        InMsg.isDisconnected = 0 ∧
    (ConnectionReader.run ([] : List Nat) EndCause.fault).2 = true := by
  exact ⟨rfl, rfl⟩

/-- Claim C1, amended.  On the exit paths that raise ConnectionResetError
(remote reset, and clean remote close, which the codec reports the same way),
ConnectionReader.run puts exactly one PeerDisconnectedMessage on the incoming
queue, after every other message it published for the connection, and does
not raise.  On any other exit (decode or I/O error, task cancellation) it
puts no PeerDisconnectedMessage and the exception propagates out of run. -/
theorem c1_read_flow_disconnected {α : Type} (msgs : List α) :
    ((ConnectionReader.run msgs EndCause.reset).1.countP
        InMsg.isDisconnected = 1 ∧
     (ConnectionReader.run msgs EndCause.reset).1.getLast? =
        some InMsg.disconnected ∧
     (ConnectionReader.run msgs EndCause.reset).2 = false) ∧
    ((ConnectionReader.run msgs EndCause.fault).1.countP
        InMsg.isDisconnected = 0 ∧
     (ConnectionReader.run msgs EndCause.fault).2 = true) := by
  rw [ConnectionReader.run_reset, ConnectionReader.run_fault]
  refine ⟨⟨?_, ?_, rfl⟩, ?_, rfl⟩
  · simp [List.countP_cons, List.countP_append, countP_isDisconnected_payloads,
      InMsg.isDisconnected]
  · rw [show InMsg.connected :: (msgs.map InMsg.payload ++ [InMsg.disconnected])
        = (InMsg.connected :: msgs.map InMsg.payload) ++ [InMsg.disconnected]
        from rfl]
    exact List.getLast?_concat _
  · simp [List.countP_cons, countP_isDisconnected_payloads, InMsg.isDisconnected]

/-- Claim C2 counterexample.  The claim states that for every connection set
up by ConnectionHandler._handle, exactly one PeerDisconnectedMessage for the
peer appears on the incoming queue.  A connection whose reader decodes one
payload and then hits a decode or I/O fault (any exception other than
ConnectionResetError) produces no PeerDisconnectedMessage at all, because the
put on line 59 of connectionhandler.py is skipped when the exception is not
caught. -/
theorem c2_counterexample :
    (ConnectionReader.run [5] EndCause.fault).1.countP
        InMsg.isDisconnected = 0 ∧
    (ConnectionReader.run [5] EndCause.fault).1 =
      [InMsg.connected, InMsg.payload 5] := by
  exact ⟨rfl, rfl⟩

/-- Claim C2, amended.  For every connection set up by
ConnectionHandler._handle whose read loop ends with ConnectionResetError
(clean close or reset), the incoming-queue puts of the connection are exactly
one PeerConnectedMessage, then the payload messages in the order received and
decoded from the socket, then exactly one PeerDisconnectedMessage.  If the
read loop instead ends with any other error, the PeerConnectedMessage still
precedes the payloads, which still appear in order, but no
PeerDisconnectedMessage is published.  A completed _handle performs the full
wiring and spawns the reader task before running the writer. -/
theorem c2_lifecycle_ordering {α : Type} (msgs : List α) :
    (ConnectionReader.run msgs EndCause.reset).1 =
      InMsg.connected :: (msgs.map InMsg.payload ++ [InMsg.disconnected]) ∧
    (ConnectionReader.run msgs EndCause.reset).1.countP InMsg.isConnected = 1 ∧
    (ConnectionReader.run msgs EndCause.reset).1.countP InMsg.isDisconnected = 1 ∧
    (ConnectionReader.run msgs EndCause.fault).1 =
      InMsg.connected :: msgs.map InMsg.payload ∧
    ConnectionHandler.handle true true PeerClass.properSubclass =
      ([HandleAction.createdOutgoingQueue, HandleAction.wiredPeer,
        HandleAction.wiredReader, HandleAction.wiredWriter,
        HandleAction.spawnedReaderTask, HandleAction.ranWriter],
       HandleOutcome.completed) := by
  rw [ConnectionReader.run_reset, ConnectionReader.run_fault]
  refine ⟨rfl, ?_, ?_, rfl, by decide⟩
  · simp [List.countP_cons, List.countP_append, countP_isConnected_payloads,
      InMsg.isConnected, InMsg.isDisconnected]
  · simp [List.countP_cons, List.countP_append, countP_isDisconnected_payloads,
      InMsg.isDisconnected]

/-! ## Lemmas about the Write Flow and the Peer Handle -/

def WriteOutcome.isOk : WriteOutcome → Bool
  | .ok => true
  | _ => false

theorem ClientInstance.send_foldl {β : Type} (msgs : List (β × WriteOutcome))
    (q : List (QItem β)) :
    msgs.foldl (fun q mo => ClientInstance.send q mo.1 mo.2) q =
      q ++ msgs.map (fun mo => QItem.msg mo.1 mo.2) := by
  induction msgs generalizing q with
  | nil => simp
  | cons mo rest ih =>
    rw [List.foldl_cons, ih]
    simp [ClientInstance.send]

theorem enqueueThenDisconnect_eq {β : Type} (msgs : List (β × WriteOutcome)) :
    enqueueThenDisconnect msgs =
      msgs.map (fun mo => QItem.msg mo.1 mo.2) ++ [QItem.disconnectSentinel] := by
  simp [enqueueThenDisconnect, ClientInstance.disconnect, ClientInstance.send_foldl]

theorem ConnectionWriter.run_no_otherErr {β : Type}
    (pairs : List (β × WriteOutcome)) (extra : List (QItem β))
    (h : ∀ p ∈ pairs, p.2 ≠ WriteOutcome.otherErr) :
    ConnectionWriter.run
        (pairs.map (fun p => QItem.msg p.1 p.2) ++
          QItem.disconnectSentinel :: extra) =
      ((pairs.filter (fun p => WriteOutcome.isOk p.2)).map
          (fun p => WAction.wrote p.1) ++ [WAction.closedSocket],
       false) := by
  induction pairs with
  | nil => simp [ConnectionWriter.run]
  | cons p rest ih =>
    have hp : p.2 ≠ WriteOutcome.otherErr := h p (List.mem_cons_self p rest)
    have hrest : ∀ q ∈ rest, q.2 ≠ WriteOutcome.otherErr :=
      fun q hq => h q (List.mem_cons_of_mem p hq)
    cases ho : p.2 with
    | ok =>
      simp [ConnectionWriter.run, ho, List.filter_cons, WriteOutcome.isOk,
        ih hrest]
    | resetErr =>
      simp [ConnectionWriter.run, ho, List.filter_cons, WriteOutcome.isOk,
        ih hrest]
    | otherErr => exact absurd ho hp

theorem ConnectionWriter.run_all_ok {β : Type} (msgs : List β)
    (extra : List (QItem β)) :
    ConnectionWriter.run
        (msgs.map (fun m => QItem.msg m WriteOutcome.ok) ++
          QItem.disconnectSentinel :: extra) =
      (msgs.map WAction.wrote ++ [WAction.closedSocket], false) := by
  induction msgs with
  | nil => simp [ConnectionWriter.run]
  | cons m rest ih => simp [ConnectionWriter.run, ih]

theorem countP_isClosedSocket_wrote {β : Type}
    (pairs : List (β × WriteOutcome)) :
    ((pairs.filter (fun p => WriteOutcome.isOk p.2)).map
        (fun p => WAction.wrote p.1)).countP WAction.isClosedSocket = 0 := by
  rw [List.countP_eq_zero]
  intro a ha
  obtain ⟨m, _, rfl⟩ := List.mem_map.mp ha
  simp [WAction.isClosedSocket]

/-- Claim C3: for every X ≥ 0, enqueueing X payload messages through the Peer
Handle (ClientInstance.send) and then calling disconnect() makes
ConnectionWriter.run write exactly those X messages, encoded, in submission
order, never write the disconnect sentinel itself (the only actions are the
writes of the X payloads and the socket close), write nothing after dequeuing
the sentinel (any items behind the sentinel are never written), and then
close the socket, without raising. -/
theorem c3_write_flow_order {β : Type} (msgs : List β) (extra : List (QItem β)) :
    ConnectionWriter.run
        (enqueueThenDisconnect (msgs.map (fun m => (m, WriteOutcome.ok)))) =
      (msgs.map WAction.wrote ++ [WAction.closedSocket], false) ∧
    ConnectionWriter.run
        (msgs.map (fun m => QItem.msg m WriteOutcome.ok) ++
          QItem.disconnectSentinel :: extra) =
      (msgs.map WAction.wrote ++ [WAction.closedSocket], false) := by
  refine ⟨?_, ConnectionWriter.run_all_ok msgs extra⟩
  rw [enqueueThenDisconnect_eq]
  have h := ConnectionWriter.run_all_ok msgs []
  simpa [List.map_map, Function.comp] using h

/-- Claim C8: if socket writes inside the Write Flow fail with
ConnectionResetError, ConnectionWriter.run swallows the error (run does not
raise), keeps consuming the outgoing queue until the disconnect sentinel
arrives, closes the socket exactly once - as the last action - and the paired
Read Flow, which observes the reset as ConnectionResetError, still puts
exactly one PeerDisconnectedMessage on the incoming queue. -/
theorem c8_reset_mid_write {α β : Type} (pairs : List (β × WriteOutcome))
    (readMsgs : List α)
    (h : ∀ p ∈ pairs, p.2 ≠ WriteOutcome.otherErr) :
    (ConnectionWriter.run (pairs.map (fun p => QItem.msg p.1 p.2) ++
        [QItem.disconnectSentinel])).2 = false ∧
    (ConnectionWriter.run (pairs.map (fun p => QItem.msg p.1 p.2) ++
        [QItem.disconnectSentinel])).1.countP WAction.isClosedSocket = 1 ∧
    (ConnectionWriter.run (pairs.map (fun p => QItem.msg p.1 p.2) ++
        [QItem.disconnectSentinel])).1.getLast? = some WAction.closedSocket ∧
    (ConnectionWriter.run (pairs.map (fun p => QItem.msg p.1 p.2) ++
        [QItem.disconnectSentinel])).1 =
      (pairs.filter (fun p => WriteOutcome.isOk p.2)).map
          (fun p => WAction.wrote p.1) ++ [WAction.closedSocket] ∧
    (ConnectionReader.run readMsgs EndCause.reset).1.countP
        InMsg.isDisconnected = 1 := by
  have hrun := ConnectionWriter.run_no_otherErr pairs [] h
  rw [hrun]
  refine ⟨rfl, ?_, List.getLast?_concat _, rfl, ?_⟩
  · simp [List.countP_append, List.countP_cons, countP_isClosedSocket_wrote,
      WAction.isClosedSocket]
  · rw [ConnectionReader.run_reset]
    simp [List.countP_cons, List.countP_append, countP_isDisconnected_payloads,
      InMsg.isDisconnected]

/-- Witness for c8_reset_mid_write: a queue holding one successful write, one
write that fails with ConnectionResetError, and the sentinel. -/
theorem c8_reset_mid_write_witness :
    (ConnectionWriter.run
        (([((0 : Nat), WriteOutcome.ok), (1, WriteOutcome.resetErr)].map
            (fun p => QItem.msg p.1 p.2)) ++
          [QItem.disconnectSentinel])).2 = false ∧
    (ConnectionWriter.run
        (([((0 : Nat), WriteOutcome.ok), (1, WriteOutcome.resetErr)].map
            (fun p => QItem.msg p.1 p.2)) ++
          [QItem.disconnectSentinel])).1.countP WAction.isClosedSocket = 1 ∧
    (ConnectionWriter.run
        (([((0 : Nat), WriteOutcome.ok), (1, WriteOutcome.resetErr)].map
            (fun p => QItem.msg p.1 p.2)) ++
          [QItem.disconnectSentinel])).1.getLast? = some WAction.closedSocket ∧
    (ConnectionWriter.run
        (([((0 : Nat), WriteOutcome.ok), (1, WriteOutcome.resetErr)].map
            (fun p => QItem.msg p.1 p.2)) ++
          [QItem.disconnectSentinel])).1 =
      ([((0 : Nat), WriteOutcome.ok), (1, WriteOutcome.resetErr)].filter
          (fun p => WriteOutcome.isOk p.2)).map
          (fun p => WAction.wrote p.1) ++ [WAction.closedSocket] ∧
    (ConnectionReader.run ([7] : List Nat) EndCause.reset).1.countP
        InMsg.isDisconnected = 1 :=
  c8_reset_mid_write [((0 : Nat), WriteOutcome.ok), (1, WriteOutcome.resetErr)]
    ([7] : List Nat) (by decide)

/-! ## Lemmas about the supervisor loop -/

theorem mem_supervisorLoop_createdQueues (delay : Nat)
    (cycles : List (List ExcKind)) :
    ∀ (n : Nat) (q1 q2 : GQueue),
      SupAction.createdQueues q1 q2 ∈ supervisorLoop delay n cycles →
      n ≤ q1.qid ∧ q2.qid = q1.qid + 1 ∧ q1.items = [] ∧ q2.items = [] := by
  induction cycles with
  | nil =>
    intro n q1 q2 h
    simp [supervisorLoop] at h
  | cons fin rest ih =>
    intro n q1 q2 h
    by_cases hf : fin.any isFatalError
    · simp [supervisorLoop, hf] at h
      obtain ⟨h1, h2⟩ := h
      subst h1; subst h2
      simp
    · simp [supervisorLoop, hf] at h
      rcases h with ⟨h1, h2⟩ | h
      · subst h1; subst h2
        simp
      · obtain ⟨hle, heq, hi1, hi2⟩ := ih (n + 2) q1 q2 h
        exact ⟨by omega, heq, hi1, hi2⟩

/-- Claim C4: in every supervisor cycle of game_server_launcher main in which
at least one finished task raised a FatalError, the supervisor logs the fatal
errors, kills all tasks exactly once, and never constructs or starts another
task set: the actions of the cycle are exactly creating the two queues,
spawning the task set, logging the fatal errors, one killall and the final
sleep, after which the loop ends regardless of any further cycle outcomes. -/
theorem c4_supervisor_fatal (delay n : Nat) (finished : List ExcKind)
    (rest : List (List ExcKind))
    (hfatal : finished.any isFatalError = true) :
    supervisorLoop delay n (finished :: rest) =
      [SupAction.createdQueues ⟨n, []⟩ ⟨n + 1, []⟩,
       SupAction.spawnedTaskSet n (n + 1),
       SupAction.loggedFatalErrors,
       SupAction.killedAllTasks,
       SupAction.slept delay] ∧
    (supervisorLoop delay n (finished :: rest)).countP
        SupAction.isKilledAllTasks = 1 ∧
    (supervisorLoop delay n (finished :: rest)).countP
        SupAction.isSpawnedTaskSet = 1 := by
  have heq : supervisorLoop delay n (finished :: rest) =
      [SupAction.createdQueues ⟨n, []⟩ ⟨n + 1, []⟩,
       SupAction.spawnedTaskSet n (n + 1),
       SupAction.loggedFatalErrors,
       SupAction.killedAllTasks,
       SupAction.slept delay] := by
    simp [supervisorLoop, hfatal]
  refine ⟨heq, ?_, ?_⟩ <;>
    simp [heq, List.countP_cons, SupAction.isKilledAllTasks,
      SupAction.isSpawnedTaskSet]

/-- Witness for c4_supervisor_fatal: a single cycle whose finished task
raised a FatalError. -/
theorem c4_supervisor_fatal_witness :
    supervisorLoop 10 0 [[ExcKind.fatalError]] =
      [SupAction.createdQueues ⟨0, []⟩ ⟨1, []⟩,
       SupAction.spawnedTaskSet 0 1,
       SupAction.loggedFatalErrors,
       SupAction.killedAllTasks,
       SupAction.slept 10] :=
  (c4_supervisor_fatal 10 0 [ExcKind.fatalError] [] (by decide)).1

/-- Claim C5: in every supervisor cycle in which some task ended and none of
the finished tasks raised a FatalError, the supervisor kills all tasks,
sleeps the configured restart delay, and re-enters the loop with a freshly
constructed task set: the next cycle creates brand-new incoming and
server-handler queues whose allocation ids differ from the current cycle
queues and whose contents are empty, so nothing carries over. -/
theorem c5_supervisor_restart (delay n : Nat) (finished : List ExcKind)
    (rest : List (List ExcKind)) (_hne : finished ≠ [])
    (hnofatal : finished.any isFatalError = false) :
    supervisorLoop delay n (finished :: rest) =
      SupAction.createdQueues ⟨n, []⟩ ⟨n + 1, []⟩ ::
      SupAction.spawnedTaskSet n (n + 1) ::
      SupAction.killedAllTasks ::
      SupAction.slept delay ::
      supervisorLoop delay (n + 2) rest ∧
    (∀ q1 q2,
      SupAction.createdQueues q1 q2 ∈ supervisorLoop delay (n + 2) rest →
      q1.qid ≠ n ∧ q1.qid ≠ n + 1 ∧ q2.qid ≠ n ∧ q2.qid ≠ n + 1 ∧
      q1.items = [] ∧ q2.items = []) := by
  refine ⟨by simp [supervisorLoop, hnofatal], ?_⟩
  intro q1 q2 hmem
  obtain ⟨hle, heq, hi1, hi2⟩ :=
    mem_supervisorLoop_createdQueues delay rest (n + 2) q1 q2 hmem
  exact ⟨by omega, by omega, by omega, by omega, hi1, hi2⟩

/-- Witness for c5_supervisor_restart: a first cycle ending with an ordinary
error followed by a second cycle. -/
theorem c5_supervisor_restart_witness :
    supervisorLoop 10 0 [[ExcKind.otherError], [ExcKind.otherError]] =
      SupAction.createdQueues ⟨0, []⟩ ⟨1, []⟩ ::
      SupAction.spawnedTaskSet 0 1 ::
      SupAction.killedAllTasks ::
      SupAction.slept 10 ::
      supervisorLoop 10 2 [[ExcKind.otherError]] :=
  (c5_supervisor_restart 10 0 [ExcKind.otherError] [[ExcKind.otherError]]
    (by decide) (by decide)).1

/-- Claim C6 counterexample.  The claim states that a contract violation in
the triple returned by create_connection_instances is classified as a fatal
condition by the supervisor.  The violation makes ConnectionHandler._handle
raise TypeError, but TypeError is not a subclass of FatalError, so
isinstance(g.exception, FatalError) in main.py line 67 is false and the
supervisor restarts: a run whose first cycle ends with a TypeError spawns a
second task set, contradicting the claimed no-restart fatal handling. -/
theorem c6_counterexample :
    ConnectionHandler.handle false true PeerClass.properSubclass =
      ([], HandleOutcome.raised ExcKind.typeError) ∧
    isFatalError ExcKind.typeError = false ∧
    (supervisorLoop 10 0 [[ExcKind.typeError], [ExcKind.otherError]]).countP
        SupAction.isSpawnedTaskSet = 2 := by
  decide

/-- Claim C6, amended.  Whenever create_connection_instances returns a triple
in which the reader is not a ConnectionReader, the writer is not a
ConnectionWriter, or the peer is not a ClientInstance, _handle raises a
TypeError before any per-connection wiring: no outgoing queue is created, no
reader task is spawned and no socket I/O for that connection begins, and the
error propagates out of the handler.  However the supervisor classifies
TypeError as non-fatal (it is not a FatalError), so a cycle ended by this
violation is followed by a restart, not a stop. -/
theorem c6_shape_violation (r w : Bool) (p : PeerClass)
    (hbad : peer_isinstance_ClientInstance p = false ∨ r = false ∨ w = false) :
    ConnectionHandler.handle r w p =
      ([], HandleOutcome.raised ExcKind.typeError) ∧
    isFatalError ExcKind.typeError = false ∧
    (∀ (delay n : Nat) (rest : List (List ExcKind)),
      supervisorLoop delay n ([ExcKind.typeError] :: rest) =
        SupAction.createdQueues ⟨n, []⟩ ⟨n + 1, []⟩ ::
        SupAction.spawnedTaskSet n (n + 1) ::
        SupAction.killedAllTasks ::
        SupAction.slept delay ::
        supervisorLoop delay (n + 2) rest) := by
  refine ⟨?_, rfl, ?_⟩
  · cases r <;> cases w <;> cases p <;> revert hbad <;> decide
  · intro delay n rest
    simp [supervisorLoop, isFatalError]

/-- Witness for c6_shape_violation: a writer that is not a ConnectionWriter. -/
theorem c6_shape_violation_witness :
    ConnectionHandler.handle true false PeerClass.properSubclass =
      ([], HandleOutcome.raised ExcKind.typeError) ∧
    isFatalError ExcKind.typeError = false ∧
    (∀ (delay n : Nat) (rest : List (List ExcKind)),
      supervisorLoop delay n ([ExcKind.typeError] :: rest) =
        SupAction.createdQueues ⟨n, []⟩ ⟨n + 1, []⟩ ::
        SupAction.spawnedTaskSet n (n + 1) ::
        SupAction.killedAllTasks ::
        SupAction.slept delay ::
        supervisorLoop delay (n + 2) rest) :=
  c6_shape_violation true false PeerClass.properSubclass
    (Or.inr (Or.inr rfl))

/-- Claim C10: ConnectionHandler._handle rejects a peer whose concrete type
is exactly ClientInstance by raising TypeError, even though such a peer
passes the isinstance shape check; every call of _handle that completes
(reaches the wiring and runs the reader and writer) has a peer that is a
proper subclass of ClientInstance; and the rejection happens with an empty
action trace, i.e. before the outgoing queue is created and before the
reader task is spawned. -/
theorem c10_reject_exact_client_instance (r w : Bool) (p : PeerClass)
    (hc : (ConnectionHandler.handle r w p).2 = HandleOutcome.completed) :
    p = PeerClass.properSubclass ∧
    peer_isinstance_ClientInstance PeerClass.exactClientInstance = true ∧
    ConnectionHandler.handle true true PeerClass.exactClientInstance =
      ([], HandleOutcome.raised ExcKind.typeError) := by
  refine ⟨?_, rfl, by decide⟩
  cases p <;> cases r <;> cases w <;> revert hc <;> decide

/-- Witness for c10_reject_exact_client_instance: a completing call of
_handle with a proper subclass peer. -/
theorem c10_reject_exact_client_instance_witness :
    PeerClass.properSubclass = PeerClass.properSubclass ∧
    peer_isinstance_ClientInstance PeerClass.exactClientInstance = true ∧
    ConnectionHandler.handle true true PeerClass.exactClientInstance =
      ([], HandleOutcome.raised ExcKind.typeError) :=
  c10_reject_exact_client_instance true true PeerClass.properSubclass
    (by decide)

/-! ## Lemmas about the Connection Initiator -/

def OutAction.isCreatedSocket : OutAction → Bool
  | .createdSocket => true
  | _ => false

def OutAction.isRanHandle : OutAction → Bool
  | .ranHandle => true
  | _ => false

def OutAction.isSlept : OutAction → Bool
  | .slept _ => true
  | _ => false

theorem outgoing_run_retry_counts (t k : Nat) :
    (OutgoingConnectionHandler.run (some t)
        (List.replicate k DialOutcome.refused ++
          [DialOutcome.connectSucceeded])).countP OutAction.isRanHandle = 1 ∧
    (OutgoingConnectionHandler.run (some t)
        (List.replicate k DialOutcome.refused ++
          [DialOutcome.connectSucceeded])).countP OutAction.isCreatedSocket =
      k + 1 ∧
    (OutgoingConnectionHandler.run (some t)
        (List.replicate k DialOutcome.refused ++
          [DialOutcome.connectSucceeded])).countP OutAction.isSlept = k ∧
    (OutgoingConnectionHandler.run (some t)
        (List.replicate k DialOutcome.refused ++
          [DialOutcome.connectSucceeded])).getLast? =
      some OutAction.ranHandle := by
  induction k with
  | zero =>
    refine ⟨rfl, rfl, rfl, rfl⟩
  | succ k ih =>
    obtain ⟨ih1, ih2, ih3, ih4⟩ := ih
    rw [List.replicate_succ, List.cons_append]
    refine ⟨?_, ?_, ?_, ?_⟩
    · simp [OutgoingConnectionHandler.run, List.countP_cons,
        OutAction.isRanHandle, ih1]
    · simp [OutgoingConnectionHandler.run, List.countP_cons,
        OutAction.isCreatedSocket, ih2]
    · simp [OutgoingConnectionHandler.run, List.countP_cons,
        OutAction.isSlept, ih3]
    · simp only [OutgoingConnectionHandler.run]
      rw [List.getLast?_cons, List.getLast?_cons, List.getLast?_cons]
      simp [ih4]

/-- Claim C7: for an OutgoingConnectionHandler whose connection attempts are
refused: in retry mode (a retry delay is configured) each refusal closes the
failed socket and sleeps the configured delay before redialling, this repeats
for arbitrarily many refusals until a connect succeeds, after which no
further dialling happens and the per-connection setup (_handle, the same
method the acceptor uses per connection) runs exactly once, as the last
action; in single-attempt mode (retry delay None) the task performs exactly
one socket creation and close after the first refusal and ends without
raising and without running the per-connection setup. -/
theorem c7_initiator_retry (t k : Nat) (rest rest2 : List DialOutcome) :
    OutgoingConnectionHandler.run (some t) (DialOutcome.refused :: rest) =
      OutAction.createdSocket :: OutAction.closedSocket ::
        OutAction.slept t :: OutgoingConnectionHandler.run (some t) rest ∧
    OutgoingConnectionHandler.run (some t)
        (DialOutcome.connectSucceeded :: rest) =
      [OutAction.createdSocket, OutAction.ranHandle] ∧
    (OutgoingConnectionHandler.run (some t)
        (List.replicate k DialOutcome.refused ++
          [DialOutcome.connectSucceeded])).countP OutAction.isRanHandle = 1 ∧
    (OutgoingConnectionHandler.run (some t)
        (List.replicate k DialOutcome.refused ++
          [DialOutcome.connectSucceeded])).countP OutAction.isCreatedSocket =
      k + 1 ∧
    (OutgoingConnectionHandler.run (some t)
        (List.replicate k DialOutcome.refused ++
          [DialOutcome.connectSucceeded])).countP OutAction.isSlept = k ∧
    (OutgoingConnectionHandler.run (some t)
        (List.replicate k DialOutcome.refused ++
          [DialOutcome.connectSucceeded])).getLast? =
      some OutAction.ranHandle ∧
    OutgoingConnectionHandler.run none (DialOutcome.refused :: rest2) =
      [OutAction.createdSocket, OutAction.closedSocket] := by
  obtain ⟨h1, h2, h3, h4⟩ := outgoing_run_retry_counts t k
  exact ⟨rfl, rfl, h1, h2, h3, h4, rfl⟩

/-! ## Lemmas about the AuthBot dispatch -/

theorem dispatch_append_of_unique (hs : List (String × PacketType))
    (good reqs : List PacketType)
    (hgood : ∀ r ∈ good, (methodsFor hs r).length = 1) :
    AuthBot.handle_login_protocol_message hs (good ++ reqs) =
      good.map (fun r =>
        DispatchEvent.invoked ((methodsFor hs r).headD "") r) ++
      AuthBot.handle_login_protocol_message hs reqs := by
  induction good with
  | nil => simp
  | cons r rest ih =>
    have h1 : (methodsFor hs r).length = 1 :=
      hgood r (List.mem_cons_self r rest)
    obtain ⟨m, hm⟩ := List.length_eq_one.mp h1
    have hrest : ∀ x ∈ rest, (methodsFor hs x).length = 1 :=
      fun x hx => hgood x (List.mem_cons_of_mem r hx)
    rw [List.cons_append]
    simp only [AuthBot.handle_login_protocol_message, hm]
    rw [ih hrest]
    simp [hm]

/-- Claim C9 counterexample.  The claim states that for EACH request inside a
login-protocol message, a request whose type has exactly one tagged handler
gets that handler invoked.  AuthBot.handle_login_protocol_message, however,
RETURNS from the whole method on the first request with no handler (authbot.py
line 188), so in a message holding first an unhandled request and then an
a0197 request - which has exactly one handler, handle_a0197 - the a0197
handler is never invoked. -/
theorem c9_counterexample :
    PacketType.a0197 ∈ [PacketType.other 0, PacketType.a0197] ∧
    methodsFor authBotHandlers PacketType.a0197 = ["handle_a0197"] ∧
    AuthBot.handle_login_protocol_message authBotHandlers
        [PacketType.other 0, PacketType.a0197] =
      [DispatchEvent.warnedNoHandler (PacketType.other 0)] ∧
    DispatchEvent.invoked "handle_a0197" PacketType.a0197 ∉
      AuthBot.handle_login_protocol_message authBotHandlers
        [PacketType.other 0, PacketType.a0197] := by
  refine ⟨by decide, by decide, by decide, by decide⟩

/-- Claim C9, amended.  AuthBot.handle_login_protocol_message processes the
requests of a message in order as long as each has exactly one tagged
handler, invoking that handler per request; on the first request with zero
handlers it logs a warning and returns, silently abandoning all remaining
requests of that message; on the first request with more than one handler it
raises ValueError, likewise abandoning the rest.  A zero-handler condition is
thus reported for the request that triggers it, but requests after it -
including ones with exactly one handler - are not dispatched. -/
theorem c9_dispatch (hs : List (String × PacketType))
    (good : List PacketType) (bad : PacketType) (rest : List PacketType)
    (hgood : ∀ r ∈ good, (methodsFor hs r).length = 1) :
    AuthBot.handle_login_protocol_message hs good =
      good.map (fun r =>
        DispatchEvent.invoked ((methodsFor hs r).headD "") r) ∧
    (methodsFor hs bad = [] →
      AuthBot.handle_login_protocol_message hs (good ++ bad :: rest) =
        good.map (fun r =>
          DispatchEvent.invoked ((methodsFor hs r).headD "") r) ++
        [DispatchEvent.warnedNoHandler bad]) ∧
    (2 ≤ (methodsFor hs bad).length →
      AuthBot.handle_login_protocol_message hs (good ++ bad :: rest) =
        good.map (fun r =>
          DispatchEvent.invoked ((methodsFor hs r).headD "") r) ++
        [DispatchEvent.raisedValueError]) := by
  refine ⟨?_, ?_, ?_⟩
  · have h := dispatch_append_of_unique hs good [] hgood
    simpa [AuthBot.handle_login_protocol_message] using h
  · intro hbad
    rw [dispatch_append_of_unique hs good (bad :: rest) hgood]
    simp only [AuthBot.handle_login_protocol_message, hbad]
  · intro hbad
    rw [dispatch_append_of_unique hs good (bad :: rest) hgood]
    match hm : methodsFor hs bad with
    | [] => rw [hm] at hbad; simp at hbad
    | [m] => rw [hm] at hbad; simp at hbad
    | m1 :: m2 :: ms =>
      simp only [AuthBot.handle_login_protocol_message, hm]

/-- Witness for c9_dispatch: the AuthBot handler table, one handled request
followed by an unhandled one. -/
theorem c9_dispatch_witness :
    AuthBot.handle_login_protocol_message authBotHandlers
        ([PacketType.a01bc] ++ PacketType.other 0 :: [PacketType.a0197]) =
      [PacketType.a01bc].map (fun r =>
        DispatchEvent.invoked ((methodsFor authBotHandlers r).headD "") r) ++
      [DispatchEvent.warnedNoHandler (PacketType.other 0)] :=
  (c9_dispatch authBotHandlers [PacketType.a01bc] (PacketType.other 0)
    [PacketType.a0197] (by decide)).2.1 (by decide)

end TAServer
